import Mathlib

/-!
Shallow embedding of the scheduling core of the voice-agent Google-Meet
scheduler (src/tools.py and src/google_calendar_api.py).

Time model: all datetimes the code manipulates are localized to the fixed
zone Asia/Kolkata (UTC+05:30, a constant offset), so a datetime value is
represented by its wall-clock microsecond count in that zone (an `Int`,
microseconds since an arbitrary epoch).  Under this standard bijection,
Python `timedelta` addition is integer addition, datetime comparison is
integer comparison, the `minute` field is `t / 60000000 % 60`, the
`second` field is `t / 1000000 % 60`, the `microsecond` field is
`t % 1000000`, and `replace(second=0, microsecond=0)` is truncation to
the minute `t / 60000000 * 60000000`.
-/

namespace GCal

/-- Microseconds per minute. -/
def usecPerMin : Int := 60000000

/-- The `minute` field of a datetime represented as wall-clock microseconds. -/
def DT.minute (t : Int) : Int := t / usecPerMin % 60

/-- The `second` field of a datetime represented as wall-clock microseconds. -/
def DT.second (t : Int) : Int := t / 1000000 % 60

/-- The `microsecond` field of a datetime represented as wall-clock microseconds. -/
def DT.microsecond (t : Int) : Int := t % 1000000

/-- A parsed ISO-format datetime string: the wall-clock fields (as a naive
microsecond count) plus the UTC offset carried by the string, in minutes,
when one is present.  `datetime.fromisoformat` on a well-formed string
yields exactly this data. -/
structure ISODT where
  naive : Int
  offsetMin : Option Int
  deriving DecidableEq, Repr

/-- `tz.localize(d.replace(tzinfo=None))` for `tz = Asia/Kolkata`: the
offset carried by the parsed string is discarded and the bare wall-clock
fields are reinterpreted in Asia/Kolkata.  In the microsecond model the
Kolkata wall clock of the result is the naive field itself. -/
def stripAndLocalize (d : ISODT) : Int := d.naive

/-- `astimezone`/`localize` normalization used by `parse_natural_datetime`
(lines 34-37 of src/tools.py): a naive result is localized to Asia/Kolkata
unchanged; an aware result with UTC offset `off` minutes is converted, its
Kolkata wall clock being `naive + (330 - off)` minutes. -/
def toKolkata (d : ISODT) : Int :=
  match d.offsetMin with
  | none => d.naive
  | some off => d.naive + (330 - off) * usecPerMin

/-- Behavioural abstraction of a Python string passed where an ISO datetime
string is expected.  Every string falls in exactly one class: the empty
string (falsy under `all([...])`), a non-empty string on which
`datetime.fromisoformat` raises (with the exception text recorded), or a
non-empty string that parses to an `ISODT`. -/
inductive DtStr where
  | empty : DtStr
  | invalid (msg : String) : DtStr
  | valid (d : ISODT) : DtStr
  deriving DecidableEq, Repr

/-- Exception text when `datetime.fromisoformat` is applied to the empty
string. -/
def invalidIsoEmptyMsg : String := "Invalid isoformat string"

/-- The `start`/`end` member of a calendar event body:
`{dateTime: ..., timeZone: ...}` as built in src/tools.py line 82-83 and
stored by the mock backend. -/
structure EventTime where
  dateTime : Int
  timeZone : String
  deriving DecidableEq, Repr

/-- A calendar event as stored/returned by the backend
(src/google_calendar_api.py lines 51-58). -/
structure Event where
  id : String
  status : String
  summary : String
  start : EventTime
  eend : EventTime
  htmlLink : String
  deriving DecidableEq, Repr

/-- The event body passed to the backend insert call
(src/tools.py lines 80-84). -/
structure EventBody where
  summary : String
  start : EventTime
  eend : EventTime
  deriving DecidableEq, Repr

/-- `MockGoogleCalendarAPI.list_events` (src/google_calendar_api.py lines
35-46): keep the stored events whose start is strictly before `timeMax`
and whose end is strictly after `timeMin`. -/
def list_events (events : List Event) (timeMin timeMax : Int) : List Event :=
  events.filter fun event =>
    decide (event.start.dateTime < timeMax ∧ event.eend.dateTime > timeMin)

/-- `MockGoogleCalendarAPI.insert_event` (src/google_calendar_api.py lines
48-60): the new event constructed from the body and the current store. -/
def mock_insert_event (events : List Event) (body : EventBody) : Event :=
  { id := "mock_event_" ++ toString (events.length + 1)
    status := "confirmed"
    summary := body.summary
    start := body.start
    eend := body.eend
    htmlLink := "https://mockcalendar.google.com/event/" ++ toString (events.length + 1) }

/-- The rounding step of src/tools.py lines 94-99: add nothing when the
minute field is already a multiple of 30, otherwise add `30 - minute % 30`
minutes; then zero the second and microsecond fields. -/
def round_up_30 (s : Int) : Int :=
  let minutes := DT.minute s
  let remainder := minutes % 30
  let s2 := if remainder ≠ 0 then s + (30 - remainder) * usecPerMin else s
  s2 / usecPerMin * usecPerMin

/-- The suggested-start computation of src/tools.py lines 88-99: start from
`end_dt`, raise to every conflicting event's end, add a 5-minute buffer,
and round per `round_up_30`. -/
def propose_start (conflicts : List Event) (end_dt : Int) : Int :=
  round_up_30
    ((conflicts.foldl
        (fun s c => if c.eend.dateTime > s then c.eend.dateTime else s) end_dt)
      + 5 * usecPerMin)

/-- The result dictionary returned by `smart_schedule_meeting`, one
constructor per return site of src/tools.py: `error` for the two
`status: error` dictionaries, `success` for the booked dictionary
(carrying the created event), `conflictSuggest` for the `status: conflict`
dictionary that carries `suggested_start`/`suggested_end`, and
`conflictUnavailable` for the `status: conflict` dictionary without a
suggestion. -/
inductive ScheduleResult where
  | error (message : String) : ScheduleResult
  | success (message : String) (event : Event) : ScheduleResult
  | conflictSuggest (message : String) (suggested_start suggested_end : Int) : ScheduleResult
  | conflictUnavailable (message : String) : ScheduleResult
  deriving DecidableEq, Repr

/-- The `status` field of the returned dictionary. -/
def ScheduleResult.status : ScheduleResult → String
  | .error _ => "error"
  | .success _ _ => "success"
  | .conflictSuggest _ _ _ => "conflict"
  | .conflictUnavailable _ => "conflict"

/-- An abstract calendar backend (`api_resource`) over a state type `σ`:
`listEvents st calendarId timeMin timeMax` and `insertEvent st calendarId
body` either raise (an `Except.error` carrying the exception text, caught
by the `except` clause of `smart_schedule_meeting`) or return a value
together with the updated backend state. -/
structure Backend (σ : Type) where
  listEvents : σ → String → Int → Int → Except String (List Event × σ)
  insertEvent : σ → String → EventBody → Except String (Event × σ)

/-- The fixed zone constant of src/tools.py. -/
def time_zone : String := "Asia/Kolkata"

/-- `smart_schedule_meeting` (src/tools.py lines 43-126), over an abstract
backend with explicit state threading.  Returns the result dictionary and
the backend state at return time (on an exception, the state already
reached when it was raised). -/
def smart_schedule_meeting {σ : Type} (b : Backend σ) (st : σ)
    (summary : String) (preferred_start preferred_end : DtStr)
    (calendar_id : String) : ScheduleResult × σ :=
  if summary = "" ∨ preferred_start = DtStr.empty ∨ preferred_end = DtStr.empty then
    (.error "Missing required meeting details (summary, preferred_start, preferred_end).", st)
  else
    match preferred_start with
    | DtStr.empty => (.error ("An error occurred: " ++ invalidIsoEmptyMsg), st)
    | DtStr.invalid e => (.error ("An error occurred: " ++ e), st)
    | DtStr.valid ds =>
      match preferred_end with
      | DtStr.empty => (.error ("An error occurred: " ++ invalidIsoEmptyMsg), st)
      | DtStr.invalid e => (.error ("An error occurred: " ++ e), st)
      | DtStr.valid de =>
        let start_dt := stripAndLocalize ds
        let end_dt := stripAndLocalize de
        match b.listEvents st calendar_id start_dt end_dt with
        | .error e => (.error ("An error occurred: " ++ e), st)
        | .ok (conflicting_events, st1) =>
          if conflicting_events.isEmpty then
            let event : EventBody :=
              { summary := summary
                start := { dateTime := start_dt, timeZone := time_zone }
                eend := { dateTime := end_dt, timeZone := time_zone } }
            match b.insertEvent st1 calendar_id event with
            | .error e => (.error ("An error occurred: " ++ e), st1)
            | .ok (created_event, st2) =>
              (.success "Meeting scheduled." created_event, st2)
          else
            let suggested_start_dt := propose_start conflicting_events end_dt
            let duration := end_dt - start_dt
            let suggested_end_dt := suggested_start_dt + duration
            match b.listEvents st1 calendar_id suggested_start_dt suggested_end_dt with
            | .error e => (.error ("An error occurred: " ++ e), st1)
            | .ok (items, st2) =>
              if items.isEmpty then
                (.conflictSuggest "Preferred time is busy. Suggested next available slot:"
                  suggested_start_dt suggested_end_dt, st2)
              else
                (.conflictUnavailable
                  "Preferred time is busy and next suggested time is also unavailable. Please try another slot.", st2)

/-- The `MockGoogleCalendarAPI` wired as a `Backend` whose state is the
stored event list: `list` filters with `list_events` and leaves the store
unchanged; `insert` appends the `mock_insert_event` and returns it.
Neither mock call raises. -/
def mockBackend : Backend (List Event) :=
  { listEvents := fun st _ timeMin timeMax => .ok (list_events st timeMin timeMax, st)
    insertEvent := fun st _ body =>
      .ok (mock_insert_event st body, st ++ [mock_insert_event st body]) }

/-- The result dictionary returned by `parse_natural_datetime`: either
`{parsed_datetime: ...}` (the instant recorded as its Asia/Kolkata
wall-clock microsecond count) or `{error: ...}`. -/
inductive ParseResult where
  | parsed (parsed_datetime : Int) : ParseResult
  | error (message : String) : ParseResult
  deriving DecidableEq, Repr

/-- `parse_natural_datetime` (src/tools.py lines 21-41), parameterized by
`dateutil_parse : phrase → default → result`, the external fuzzy parser
(third-party library code, not part of this repository): it receives the
phrase and the Asia/Kolkata-localized reference instant used as the
default, and either raises (`Except.error` with the exception text) or
returns a naive-or-aware datetime.  Every exception inside the `try`
block, including one raised by `fromisoformat` on the reference string,
is caught and rendered as the `error` dictionary. -/
def parse_natural_datetime (dateutil_parse : String → Int → Except String ISODT)
    (input_string : String) (current_datetime_str : DtStr) : ParseResult :=
  match current_datetime_str with
  | DtStr.empty =>
    .error ("Could not parse natural datetime: " ++ invalidIsoEmptyMsg
      ++ ". Please try a more specific format.")
  | DtStr.invalid e =>
    .error ("Could not parse natural datetime: " ++ e
      ++ ". Please try a more specific format.")
  | DtStr.valid cur =>
    let current_dt := stripAndLocalize cur
    match dateutil_parse input_string current_dt with
    | .error e =>
      .error ("Could not parse natural datetime: " ++ e
        ++ ". Please try a more specific format.")
    | .ok parsed_dt => .parsed (toKolkata parsed_dt)

/-- The maximum of the original window end and every conflicting event's
end time, phrased with `max` (specification side, for comparison with
the code's fold). -/
def latest_end (conflicts : List Event) (end_dt : Int) : Int :=
  conflicts.foldl (fun s c => max s c.eend.dateTime) end_dt

/-- A backend whose every call raises (models a network/auth failure of
the real Google client), used to exercise the exception paths. -/
def failingBackend (msg : String) : Backend Unit :=
  { listEvents := fun _ _ _ _ => Except.error msg
    insertEvent := fun _ _ _ => Except.error msg }

end GCal

namespace GCal

lemma foldl_if_eq_foldl_max (conflicts : List Event) (e0 : Int) :
    conflicts.foldl (fun s c => if c.eend.dateTime > s then c.eend.dateTime else s) e0
      = latest_end conflicts e0 := by
  unfold latest_end
  induction conflicts generalizing e0 with
  | nil => rfl
  | cons c cs ih =>
    simp only [List.foldl_cons, ih]
    congr 1
    rcases lt_or_ge e0 c.eend.dateTime with h | h
    · rw [if_pos h, max_eq_right h.le]
    · rw [if_neg (not_lt.mpr h), max_eq_left h]

lemma latest_end_ge (conflicts : List Event) (e0 : Int) :
    e0 ≤ latest_end conflicts e0 ∧
      ∀ c ∈ conflicts, c.eend.dateTime ≤ latest_end conflicts e0 := by
  unfold latest_end
  induction conflicts generalizing e0 with
  | nil => simp
  | cons c cs ih =>
    simp only [List.foldl_cons, List.mem_cons]
    refine ⟨le_trans (le_max_left _ _) (ih (max e0 c.eend.dateTime)).1, ?_⟩
    rintro x (rfl | hx)
    · exact le_trans (le_max_right _ _) (ih (max e0 x.eend.dateTime)).1
    · exact (ih (max e0 c.eend.dateTime)).2 x hx

lemma latest_end_mem (conflicts : List Event) (e0 : Int) :
    latest_end conflicts e0 = e0 ∨
      ∃ c ∈ conflicts, c.eend.dateTime = latest_end conflicts e0 := by
  unfold latest_end
  induction conflicts generalizing e0 with
  | nil => simp
  | cons c cs ih =>
    simp only [List.foldl_cons, List.mem_cons]
    rcases ih (max e0 c.eend.dateTime) with h | ⟨x, hx, hex⟩
    · rcases le_total c.eend.dateTime e0 with h2 | h2
      · left; rw [h, max_eq_left h2]
      · right; exact ⟨c, Or.inl rfl, by rw [h, max_eq_right h2]⟩
    · right; exact ⟨x, Or.inr hx, hex⟩

lemma round_up_30_fields (s : Int) :
    (DT.minute (round_up_30 s) = 0 ∨ DT.minute (round_up_30 s) = 30) ∧
      DT.second (round_up_30 s) = 0 ∧ DT.microsecond (round_up_30 s) = 0 := by
  unfold round_up_30 DT.minute DT.second DT.microsecond usecPerMin
  simp only []
  split <;> omega

lemma round_up_30_ge (s : Int) (h : DT.minute s % 30 ≠ 0) : s ≤ round_up_30 s := by
  unfold round_up_30 DT.minute usecPerMin at *
  simp only []
  rw [if_pos (by omega)]
  omega

lemma round_up_30_trunc (s : Int) (h : DT.minute s % 30 = 0) :
    round_up_30 s = s / usecPerMin * usecPerMin := by
  unfold round_up_30 DT.minute usecPerMin at *
  simp only []
  rw [if_neg (by omega)]

/-- Claim C3: the mock conflict check reports a booking `(bs, be)` against
a queried window `(ws, we)` iff `bs < we` and `be > ws`; bookings that
merely touch an endpoint (`be = ws` or `bs = we`) are never reported. -/
theorem claim_C3_overlap (events : List Event) (b : Event) (ws we : Int) :
    (b ∈ list_events events ws we ↔
      b ∈ events ∧ (b.start.dateTime < we ∧ b.eend.dateTime > ws)) ∧
    (b.eend.dateTime = ws → b ∉ list_events events ws we) ∧
    (b.start.dateTime = we → b ∉ list_events events ws we) := by
  have hmem : b ∈ list_events events ws we ↔
      b ∈ events ∧ (b.start.dateTime < we ∧ b.eend.dateTime > ws) := by
    simp [list_events, List.mem_filter]
  refine ⟨hmem, fun h hb => ?_, fun h hb => ?_⟩
  · exact absurd ((hmem.mp hb).2.2) (by omega)
  · exact absurd ((hmem.mp hb).2.1) (by omega)

/-- Witness for claim C3 at a concrete store: a booking over `[0, 10)`
overlaps the window `[5, 15)`, and a booking ending exactly at the window
start `10` is not reported. -/
theorem claim_C3_overlap_w :
    ((⟨"1", "confirmed", "x", ⟨0, "Asia/Kolkata"⟩, ⟨10, "Asia/Kolkata"⟩, ""⟩ : Event) ∈
      list_events [⟨"1", "confirmed", "x", ⟨0, "Asia/Kolkata"⟩, ⟨10, "Asia/Kolkata"⟩, ""⟩] 5 15) ∧
    ((⟨"1", "confirmed", "x", ⟨0, "Asia/Kolkata"⟩, ⟨10, "Asia/Kolkata"⟩, ""⟩ : Event) ∉
      list_events [⟨"1", "confirmed", "x", ⟨0, "Asia/Kolkata"⟩, ⟨10, "Asia/Kolkata"⟩, ""⟩] 10 20) :=
  ⟨(claim_C3_overlap _ _ 5 15).1.mpr (by simp),
   (claim_C3_overlap [⟨"1", "confirmed", "x", ⟨0, "Asia/Kolkata"⟩, ⟨10, "Asia/Kolkata"⟩, ""⟩]
      ⟨"1", "confirmed", "x", ⟨0, "Asia/Kolkata"⟩, ⟨10, "Asia/Kolkata"⟩, ""⟩ 10 20).2.1 rfl⟩

/-- Counterexample to claim C4 as stated: with no conflict ending later
than `25:45` past the hour and original window end at `0:00`, the latest
end is `1545000000` µs, the buffered instant is `1845000000` µs (minute
30, seconds 45), yet the proposed candidate start is `1800000000` µs
(minute 30 sharp) — strictly EARLIER than the buffered instant, because
the rounding inspects only the minute field and then truncates the
seconds. -/
theorem claim_C4_cex :
    propose_start [⟨"2", "confirmed", "y", ⟨0, "Asia/Kolkata"⟩, ⟨1545000000, "Asia/Kolkata"⟩, ""⟩] 0
        = 1800000000 ∧
    latest_end [⟨"2", "confirmed", "y", ⟨0, "Asia/Kolkata"⟩, ⟨1545000000, "Asia/Kolkata"⟩, ""⟩] 0
        + 5 * usecPerMin = 1845000000 ∧
    (1800000000 : Int) < 1845000000 :=
  ⟨by decide, by decide, by decide⟩

/-- Claim C4 (amended): the candidate start is the buffered instant
(`latest_end + 5 min`, the latest end being the maximum of the original
window end and every conflict end) rounded by the code's minute-only
rounding: when the buffered minute is not on a 30-minute boundary the
candidate is never earlier than the buffered instant, but when it already
is, the candidate is the buffered instant truncated to the minute, hence
possibly earlier by less than one minute. -/
theorem claim_C4_candidate (conflicts : List Event) (end_dt : Int) :
    propose_start conflicts end_dt
        = round_up_30 (latest_end conflicts end_dt + 5 * usecPerMin) ∧
    end_dt ≤ latest_end conflicts end_dt ∧
    (∀ c ∈ conflicts, c.eend.dateTime ≤ latest_end conflicts end_dt) ∧
    (latest_end conflicts end_dt = end_dt ∨
      ∃ c ∈ conflicts, c.eend.dateTime = latest_end conflicts end_dt) ∧
    (DT.minute (latest_end conflicts end_dt + 5 * usecPerMin) % 30 ≠ 0 →
      latest_end conflicts end_dt + 5 * usecPerMin ≤ propose_start conflicts end_dt) ∧
    (DT.minute (latest_end conflicts end_dt + 5 * usecPerMin) % 30 = 0 →
      propose_start conflicts end_dt
          = (latest_end conflicts end_dt + 5 * usecPerMin) / usecPerMin * usecPerMin ∧
      propose_start conflicts end_dt ≤ latest_end conflicts end_dt + 5 * usecPerMin ∧
      latest_end conflicts end_dt + 5 * usecPerMin - propose_start conflicts end_dt
          < usecPerMin) := by
  have heq : propose_start conflicts end_dt
      = round_up_30 (latest_end conflicts end_dt + 5 * usecPerMin) := by
    unfold propose_start
    rw [foldl_if_eq_foldl_max]
  refine ⟨heq, (latest_end_ge conflicts end_dt).1, (latest_end_ge conflicts end_dt).2,
    latest_end_mem conflicts end_dt, fun h => ?_, fun h => ?_⟩
  · rw [heq]
    exact round_up_30_ge _ h
  · rw [heq, round_up_30_trunc _ h]
    unfold usecPerMin
    omega

/-- Witness for claim C4 (amended) at concrete inputs: one conflict list
whose buffered instant has minute 35 (rounded up, never earlier), and one
whose buffered instant has minute 30 with 45 seconds (truncated,
earlier). -/
theorem claim_C4_candidate_w :
    (DT.minute (latest_end
        [⟨"3", "confirmed", "z", ⟨0, "Asia/Kolkata"⟩, ⟨1800000000, "Asia/Kolkata"⟩, ""⟩] 0
        + 5 * usecPerMin) % 30 ≠ 0 ∧
      latest_end [⟨"3", "confirmed", "z", ⟨0, "Asia/Kolkata"⟩, ⟨1800000000, "Asia/Kolkata"⟩, ""⟩] 0
          + 5 * usecPerMin ≤
        propose_start
          [⟨"3", "confirmed", "z", ⟨0, "Asia/Kolkata"⟩, ⟨1800000000, "Asia/Kolkata"⟩, ""⟩] 0) ∧
    (DT.minute (latest_end
        [⟨"2", "confirmed", "y", ⟨0, "Asia/Kolkata"⟩, ⟨1545000000, "Asia/Kolkata"⟩, ""⟩] 0
        + 5 * usecPerMin) % 30 = 0 ∧
      propose_start
          [⟨"2", "confirmed", "y", ⟨0, "Asia/Kolkata"⟩, ⟨1545000000, "Asia/Kolkata"⟩, ""⟩] 0
        = (latest_end [⟨"2", "confirmed", "y", ⟨0, "Asia/Kolkata"⟩, ⟨1545000000, "Asia/Kolkata"⟩, ""⟩] 0
            + 5 * usecPerMin) / usecPerMin * usecPerMin) :=
  ⟨⟨by decide,
    (claim_C4_candidate
      [⟨"3", "confirmed", "z", ⟨0, "Asia/Kolkata"⟩, ⟨1800000000, "Asia/Kolkata"⟩, ""⟩] 0).2.2.2.2.1
      (by decide)⟩,
   ⟨by decide,
    ((claim_C4_candidate
      [⟨"2", "confirmed", "y", ⟨0, "Asia/Kolkata"⟩, ⟨1545000000, "Asia/Kolkata"⟩, ""⟩] 0).2.2.2.2.2
      (by decide)).1⟩⟩

/-- Claim C5: whenever `smart_schedule_meeting` returns the suggestion
outcome, the suggested window's duration equals the preferred window's
duration exactly. -/
theorem claim_C5_duration {σ : Type} (b : Backend σ) (st : σ) (summary : String)
    (ds de : ISODT) (cid msg : String) (ss se : Int) (st2 : σ)
    (h : smart_schedule_meeting b st summary (DtStr.valid ds) (DtStr.valid de) cid
          = (ScheduleResult.conflictSuggest msg ss se, st2)) :
    se - ss = de.naive - ds.naive := by
  unfold smart_schedule_meeting at h
  split at h
  · simp at h
  · simp only [] at h
    split at h
    · simp at h
    · split at h
      · split at h
        · simp at h
        · simp at h
      · split at h
        · simp at h
        · split at h
          · simp only [Prod.mk.injEq, ScheduleResult.conflictSuggest.injEq] at h
            obtain ⟨⟨hm, hss, hse⟩, hst⟩ := h
            subst hss; subst hse
            unfold stripAndLocalize
            ring
          · simp at h

/-- Witness for claim C5: the Scenario-B instance (preferred 10:00-10:30
against a 10:15-11:00 booking) yields the suggestion 11:30-12:00, whose
duration is the requested 30 minutes. -/
theorem claim_C5_duration_w :
    (41400000000 : Int) - 43200000000 = 36000000000 - 37800000000 ∨
    (43200000000 : Int) - 41400000000 = 37800000000 - 36000000000 :=
  Or.inr
    (claim_C5_duration mockBackend
      [⟨"1", "confirmed", "x", ⟨36900000000, "Asia/Kolkata"⟩, ⟨39600000000, "Asia/Kolkata"⟩, ""⟩]
      "Standup" ⟨36000000000, none⟩ ⟨37800000000, none⟩ "primary"
      "Preferred time is busy. Suggested next available slot:" 41400000000 43200000000
      [⟨"1", "confirmed", "x", ⟨36900000000, "Asia/Kolkata"⟩, ⟨39600000000, "Asia/Kolkata"⟩, ""⟩]
      (by decide))

/-- Claim C6: the proposed candidate start always lands on a 30-minute
boundary: its minute is 0 or 30 and its second and microsecond fields are
zero. -/
theorem claim_C6_boundary (conflicts : List Event) (end_dt : Int) :
    (DT.minute (propose_start conflicts end_dt) = 0 ∨
      DT.minute (propose_start conflicts end_dt) = 30) ∧
    DT.second (propose_start conflicts end_dt) = 0 ∧
    DT.microsecond (propose_start conflicts end_dt) = 0 := by
  unfold propose_start
  exact round_up_30_fields _

lemma schedule_free_eq (events : List Event) (summary : String) (ds de : ISODT)
    (cid : String) (hsum : summary ≠ "")
    (hfree : list_events events ds.naive de.naive = []) :
    smart_schedule_meeting mockBackend events summary (DtStr.valid ds) (DtStr.valid de) cid
      = (ScheduleResult.success "Meeting scheduled."
           (mock_insert_event events ⟨summary, ⟨ds.naive, time_zone⟩, ⟨de.naive, time_zone⟩⟩),
         events ++ [mock_insert_event events
           ⟨summary, ⟨ds.naive, time_zone⟩, ⟨de.naive, time_zone⟩⟩]) := by
  simp [smart_schedule_meeting, mockBackend, stripAndLocalize, hsum, hfree]

/-- Counterexample to claim C1 as stated: with summary present and
preferred start equal to preferred end (both `36000000000` µs, a
degenerate window) on an empty calendar, `smart_schedule_meeting` books
the meeting — status `success`, one event inserted — rather than
returning the validation-error outcome. -/
theorem claim_C1_cex :
    (smart_schedule_meeting mockBackend [] "Standup" (DtStr.valid ⟨36000000000, none⟩)
        (DtStr.valid ⟨36000000000, none⟩) "primary").1.status = "success" ∧
    (smart_schedule_meeting mockBackend [] "Standup" (DtStr.valid ⟨36000000000, none⟩)
        (DtStr.valid ⟨36000000000, none⟩) "primary").1.status ≠ "error" ∧
    (smart_schedule_meeting mockBackend [] "Standup" (DtStr.valid ⟨36000000000, none⟩)
        (DtStr.valid ⟨36000000000, none⟩) "primary").2.length = 1 :=
  ⟨rfl, by decide, rfl⟩

/-- Claim C1 (amended): `smart_schedule_meeting` validates only the
presence of `summary`, `preferred_start` and `preferred_end`, never their
order: with the three fields present and parseable and preferred start ≥
preferred end, the request proceeds like any other, and when the backend
reports no booking overlapping the degenerate window it is booked
unchanged instead of being rejected. -/
theorem claim_C1_no_order_validation (events : List Event) (summary : String)
    (ds de : ISODT) (cid : String)
    (hsum : summary ≠ "") (hge : de.naive ≤ ds.naive)
    (hfree : list_events events ds.naive de.naive = []) :
    smart_schedule_meeting mockBackend events summary (DtStr.valid ds) (DtStr.valid de) cid
      = (ScheduleResult.success "Meeting scheduled."
           (mock_insert_event events ⟨summary, ⟨ds.naive, time_zone⟩, ⟨de.naive, time_zone⟩⟩),
         events ++ [mock_insert_event events
           ⟨summary, ⟨ds.naive, time_zone⟩, ⟨de.naive, time_zone⟩⟩]) ∧
    (smart_schedule_meeting mockBackend events summary
        (DtStr.valid ds) (DtStr.valid de) cid).1.status = "success" := by
  have h := schedule_free_eq events summary ds de cid hsum hfree
  exact ⟨h, by rw [h]; rfl⟩

/-- Witness for claim C1 (amended): a degenerate window with start = end =
`36000000000` µs on an empty calendar is booked, status `success`. -/
theorem claim_C1_no_order_validation_w :
    (smart_schedule_meeting mockBackend [] "Review" (DtStr.valid ⟨36000000000, some 330⟩)
        (DtStr.valid ⟨36000000000, none⟩) "primary").1.status = "success" :=
  (claim_C1_no_order_validation [] "Review" ⟨36000000000, some 330⟩ ⟨36000000000, none⟩
    "primary" (by decide) (by decide) rfl).2

/-- Claim C2: with a non-empty summary and a valid preferred window, when
the backend reports no booking overlapping it, `smart_schedule_meeting`
inserts an event (the store grows by exactly that event) and returns the
success outcome whose event carries exactly the preferred start and end
instants. -/
theorem claim_C2_books_when_free (events : List Event) (summary : String)
    (ds de : ISODT) (cid : String)
    (hsum : summary ≠ "") (hlt : ds.naive < de.naive)
    (hfree : list_events events ds.naive de.naive = []) :
    ∃ ev : Event,
      smart_schedule_meeting mockBackend events summary (DtStr.valid ds) (DtStr.valid de) cid
        = (ScheduleResult.success "Meeting scheduled." ev, events ++ [ev]) ∧
      ev.summary = summary ∧ ev.start.dateTime = ds.naive ∧ ev.eend.dateTime = de.naive :=
  ⟨mock_insert_event events ⟨summary, ⟨ds.naive, time_zone⟩, ⟨de.naive, time_zone⟩⟩,
   schedule_free_eq events summary ds de cid hsum hfree, rfl, rfl, rfl⟩

/-- Witness for claim C2: Scenario A — preferred 10:00-10:30 (µs values
`36000000000`-`37800000000`) on an empty calendar is booked, status
`success`, and exactly one event is stored. -/
theorem claim_C2_books_when_free_w :
    (smart_schedule_meeting mockBackend [] "Standup" (DtStr.valid ⟨36000000000, none⟩)
        (DtStr.valid ⟨37800000000, none⟩) "primary").1.status = "success" ∧
    (smart_schedule_meeting mockBackend [] "Standup" (DtStr.valid ⟨36000000000, none⟩)
        (DtStr.valid ⟨37800000000, none⟩) "primary").2.length = 1 := by
  obtain ⟨ev, heq, -, -, -⟩ := claim_C2_books_when_free [] "Standup" ⟨36000000000, none⟩
    ⟨37800000000, none⟩ "primary" (by decide) (by decide) rfl
  rw [heq]
  exact ⟨rfl, by simp⟩

/-- Claim C7: whenever the preferred window has at least one conflict,
`smart_schedule_meeting` never inserts: the store is returned unchanged,
exactly one candidate window is proposed, and the result is the
suggestion outcome when that candidate is free and the unavailable
outcome otherwise — no further slots are searched. -/
theorem claim_C7_no_insert_on_conflict (events : List Event) (summary : String)
    (ds de : ISODT) (cid : String) (hsum : summary ≠ "")
    (hbusy : list_events events ds.naive de.naive ≠ []) :
    smart_schedule_meeting mockBackend events summary (DtStr.valid ds) (DtStr.valid de) cid
      = ((if list_events events
              (propose_start (list_events events ds.naive de.naive) de.naive)
              (propose_start (list_events events ds.naive de.naive) de.naive
                + (de.naive - ds.naive)) = [] then
            ScheduleResult.conflictSuggest "Preferred time is busy. Suggested next available slot:"
              (propose_start (list_events events ds.naive de.naive) de.naive)
              (propose_start (list_events events ds.naive de.naive) de.naive
                + (de.naive - ds.naive))
          else
            ScheduleResult.conflictUnavailable
              "Preferred time is busy and next suggested time is also unavailable. Please try another slot."),
         events) := by
  have hb2 : (list_events events ds.naive de.naive).isEmpty = false := by
    cases h : list_events events ds.naive de.naive with
    | nil => exact absurd h hbusy
    | cons a l => rfl
  by_cases hc : list_events events
      (propose_start (list_events events ds.naive de.naive) de.naive)
      (propose_start (list_events events ds.naive de.naive) de.naive
        + (de.naive - ds.naive)) = []
  · rw [if_pos hc]
    simp [smart_schedule_meeting, mockBackend, stripAndLocalize, hsum, hb2, hc]
  · rw [if_neg hc]
    have hc2 : (list_events events
        (propose_start (list_events events ds.naive de.naive) de.naive)
        (propose_start (list_events events ds.naive de.naive) de.naive
          + (de.naive - ds.naive))).isEmpty = false := by
      cases h : list_events events
          (propose_start (list_events events ds.naive de.naive) de.naive)
          (propose_start (list_events events ds.naive de.naive) de.naive
            + (de.naive - ds.naive)) with
      | nil => exact absurd h hc
      | cons a l => rfl
    simp [smart_schedule_meeting, mockBackend, stripAndLocalize, hsum, hb2, hc2]

/-- Witness for claim C7: Scenario B — preferred 10:00-10:30 against a
10:15-11:00 booking yields the suggestion 11:30-12:00 and the store is
unchanged (no insert). -/
theorem claim_C7_no_insert_on_conflict_w :
    smart_schedule_meeting mockBackend
        [⟨"1", "confirmed", "x", ⟨36900000000, "Asia/Kolkata"⟩, ⟨39600000000, "Asia/Kolkata"⟩, ""⟩]
        "Standup" (DtStr.valid ⟨36000000000, none⟩) (DtStr.valid ⟨37800000000, none⟩) "primary"
      = (ScheduleResult.conflictSuggest "Preferred time is busy. Suggested next available slot:"
           41400000000 43200000000,
         [⟨"1", "confirmed", "x", ⟨36900000000, "Asia/Kolkata"⟩, ⟨39600000000, "Asia/Kolkata"⟩, ""⟩]) := by
  have h := claim_C7_no_insert_on_conflict
      [⟨"1", "confirmed", "x", ⟨36900000000, "Asia/Kolkata"⟩, ⟨39600000000, "Asia/Kolkata"⟩, ""⟩]
      "Standup" ⟨36000000000, none⟩ ⟨37800000000, none⟩ "primary" (by decide) (by decide)
  rw [h]
  rfl

/-- Claim C8: `smart_schedule_meeting` is total — every outcome is a
returned value whose status is `success`, `conflict` or `error` — and a
raised backend failure (of the first list call, of the insert call, or of
the candidate list call) is caught and surfaced as the `error` outcome,
which is distinct from the `conflict` outcome used for busy windows. -/
theorem claim_C8_errors_as_data {σ : Type} (b : Backend σ) (st : σ) (summary : String)
    (ps pe : DtStr) (cid : String) :
    ((smart_schedule_meeting b st summary ps pe cid).1.status = "success" ∨
     (smart_schedule_meeting b st summary ps pe cid).1.status = "conflict" ∨
     (smart_schedule_meeting b st summary ps pe cid).1.status = "error") ∧
    (∀ ds de msg, summary ≠ "" →
      b.listEvents st cid ds.naive de.naive = Except.error msg →
      (smart_schedule_meeting b st summary (DtStr.valid ds) (DtStr.valid de) cid).1
          = ScheduleResult.error ("An error occurred: " ++ msg) ∧
      (smart_schedule_meeting b st summary (DtStr.valid ds) (DtStr.valid de) cid).1.status
          = "error" ∧
      (smart_schedule_meeting b st summary (DtStr.valid ds) (DtStr.valid de) cid).1.status
          ≠ "conflict") ∧
    (∀ ds de st1 msg, summary ≠ "" →
      b.listEvents st cid ds.naive de.naive = Except.ok ([], st1) →
      b.insertEvent st1 cid
          ⟨summary, ⟨ds.naive, time_zone⟩, ⟨de.naive, time_zone⟩⟩ = Except.error msg →
      (smart_schedule_meeting b st summary (DtStr.valid ds) (DtStr.valid de) cid).1
          = ScheduleResult.error ("An error occurred: " ++ msg)) ∧
    (∀ ds de conflicts st1 msg, summary ≠ "" → conflicts ≠ [] →
      b.listEvents st cid ds.naive de.naive = Except.ok (conflicts, st1) →
      b.listEvents st1 cid (propose_start conflicts de.naive)
          (propose_start conflicts de.naive + (de.naive - ds.naive)) = Except.error msg →
      (smart_schedule_meeting b st summary (DtStr.valid ds) (DtStr.valid de) cid).1
          = ScheduleResult.error ("An error occurred: " ++ msg)) := by
  refine ⟨?_, ?_, ?_, ?_⟩
  · cases h : (smart_schedule_meeting b st summary ps pe cid).1 <;>
      simp [ScheduleResult.status]
  · intro ds de msg hsum hlist
    simp [smart_schedule_meeting, stripAndLocalize, hsum, hlist, ScheduleResult.status]
  · intro ds de st1 msg hsum hlist hins
    simp [smart_schedule_meeting, stripAndLocalize, hsum, hlist, hins]
  · intro ds de conflicts st1 msg hsum hne hlist hcand
    have hb2 : conflicts.isEmpty = false := by
      cases conflicts with
      | nil => exact absurd rfl hne
      | cons a l => rfl
    simp [smart_schedule_meeting, stripAndLocalize, hsum, hlist, hb2, hcand]

/-- Witness for claim C8: against a backend whose list call raises
"network down", the result is the `error` outcome carrying the exception
text, and its status is not `conflict`. -/
theorem claim_C8_errors_as_data_w :
    (smart_schedule_meeting (failingBackend "network down") () "Standup"
        (DtStr.valid ⟨36000000000, none⟩) (DtStr.valid ⟨37800000000, none⟩) "primary").1
      = ScheduleResult.error ("An error occurred: " ++ "network down") ∧
    (smart_schedule_meeting (failingBackend "network down") () "Standup"
        (DtStr.valid ⟨36000000000, none⟩) (DtStr.valid ⟨37800000000, none⟩) "primary").1.status
      ≠ "conflict" :=
  ⟨((claim_C8_errors_as_data (failingBackend "network down") () "Standup"
      (DtStr.valid ⟨36000000000, none⟩) (DtStr.valid ⟨37800000000, none⟩) "primary").2.1
      ⟨36000000000, none⟩ ⟨37800000000, none⟩ "network down" (by decide) rfl).1,
   ((claim_C8_errors_as_data (failingBackend "network down") () "Standup"
      (DtStr.valid ⟨36000000000, none⟩) (DtStr.valid ⟨37800000000, none⟩) "primary").2.1
      ⟨36000000000, none⟩ ⟨37800000000, none⟩ "network down" (by decide) rfl).2.2⟩

/-- Claim C9: whenever the external fuzzy parser cannot interpret the
phrase (raises), `parse_natural_datetime` returns the explicit error
dictionary with a non-empty message and never a `parsed_datetime`
defaulted from the reference instant. -/
theorem claim_C9_parse_error (dp : String → Int → Except String ISODT)
    (input_string : String) (cur : ISODT) (msg : String)
    (h : dp input_string cur.naive = Except.error msg) :
    parse_natural_datetime dp input_string (DtStr.valid cur)
        = ParseResult.error ("Could not parse natural datetime: " ++ msg
            ++ ". Please try a more specific format.") ∧
    ("Could not parse natural datetime: " ++ msg
        ++ ". Please try a more specific format.").length ≠ 0 ∧
    (∀ t, parse_natural_datetime dp input_string (DtStr.valid cur) ≠ ParseResult.parsed t) := by
  refine ⟨?_, ?_, ?_⟩
  · simp [parse_natural_datetime, stripAndLocalize, h]
  · rw [String.length_append, String.length_append]
    have hA : "Could not parse natural datetime: ".length = 34 := rfl
    omega
  · intro t
    simp [parse_natural_datetime, stripAndLocalize, h]

/-- Witness for claim C9: Scenario E — the empty phrase, on which the
fuzzy parser raises, yields the error dictionary with a non-empty
message. -/
theorem claim_C9_parse_error_w :
    parse_natural_datetime (fun _ _ => Except.error "String does not contain a date") ""
        (DtStr.valid ⟨0, none⟩)
      = ParseResult.error ("Could not parse natural datetime: "
          ++ "String does not contain a date" ++ ". Please try a more specific format.") ∧
    ("Could not parse natural datetime: " ++ "String does not contain a date"
        ++ ". Please try a more specific format.").length ≠ 0 :=
  ⟨(claim_C9_parse_error (fun _ _ => Except.error "String does not contain a date") ""
      ⟨0, none⟩ "String does not contain a date" rfl).1,
   (claim_C9_parse_error (fun _ _ => Except.error "String does not contain a date") ""
      ⟨0, none⟩ "String does not contain a date" rfl).2.1⟩

/-- Claim C10: both tools strip the UTC offset of their ISO datetime
string inputs and reinterpret the bare wall-clock fields in the fixed
Asia/Kolkata zone: inputs that agree on the wall-clock fields but differ
in offset produce identical results. -/
theorem claim_C10_offset_ignored {σ : Type} (b : Backend σ) (st : σ) (summary : String)
    (s1 s2 e1 e2 : ISODT) (cid : String)
    (dp : String → Int → Except String ISODT) (input_string : String) (c1 c2 : ISODT)
    (hs : s1.naive = s2.naive) (he : e1.naive = e2.naive) (hc : c1.naive = c2.naive) :
    smart_schedule_meeting b st summary (DtStr.valid s1) (DtStr.valid e1) cid
        = smart_schedule_meeting b st summary (DtStr.valid s2) (DtStr.valid e2) cid ∧
    parse_natural_datetime dp input_string (DtStr.valid c1)
        = parse_natural_datetime dp input_string (DtStr.valid c2) := by
  constructor
  · simp [smart_schedule_meeting, stripAndLocalize, hs, he]
  · simp only [parse_natural_datetime, stripAndLocalize, hc]

/-- Witness for claim C10: concrete inputs whose offsets differ (none,
+05:30, +00:00, +01:00) but whose wall-clock fields agree give equal
results for both tools. -/
theorem claim_C10_offset_ignored_w :
    smart_schedule_meeting mockBackend [] "Standup" (DtStr.valid ⟨36000000000, none⟩)
        (DtStr.valid ⟨37800000000, some 0⟩) "primary"
      = smart_schedule_meeting mockBackend [] "Standup" (DtStr.valid ⟨36000000000, some 330⟩)
        (DtStr.valid ⟨37800000000, none⟩) "primary" ∧
    parse_natural_datetime (fun _ d => Except.ok ⟨d, none⟩) "tomorrow"
        (DtStr.valid ⟨0, none⟩)
      = parse_natural_datetime (fun _ d => Except.ok ⟨d, none⟩) "tomorrow"
        (DtStr.valid ⟨0, some 60⟩) :=
  claim_C10_offset_ignored mockBackend [] "Standup" ⟨36000000000, none⟩ ⟨36000000000, some 330⟩
    ⟨37800000000, some 0⟩ ⟨37800000000, none⟩ "primary" (fun _ d => Except.ok ⟨d, none⟩)
    "tomorrow" ⟨0, none⟩ ⟨0, some 60⟩ rfl rfl rfl

end GCal
